import Mathlib

/-!
Shallow embedding of the mxspp runtime core (`src/core`): the unified error
value `MXError`, the runtime type-information nodes (`MXRuntimeTypeInfo`),
the base object `MXObject` with its dynamic property store, and the
`MXPopulationManager` live-object registry.

Pointers are modelled as natural-number addresses (`Addr`); a nullable
pointer is an `Option Addr`.  A `std::unique_ptr<MXObject>` handle is an
`Option Addr` (null handle = `none`); moving a handle empties the source.
-/

namespace MxsCore

/-- A machine address identifying one object (C++ pointer identity). -/
abbrev Addr := Nat

/-- `mxs::core::MXRuntimeTypeInfo`: a type-identity node with a name
and a nullable pointer to its parent node (`nullptr` = `none`). -/
structure MXRuntimeTypeInfo where
  name : String
  parent : Option Addr
deriving DecidableEq, Repr

/-- Fixed address of the static node built inside `MXObject::get_rtti`. -/
def MXObject.rttiAddr : Addr := 0

/-- Fixed address of the static node built inside `MXError::get_rtti`. -/
def MXError.rttiAddr : Addr := 1

/-- Fixed address of the static node built inside
`MXPopulationManager::get_rtti`. -/
def MXPopulationManager.rttiAddr : Addr := 2

/-- Fixed address of the static node built inside
`MXDynamicTypeInfoManager::get_rtti`. -/
def MXDynamicTypeInfoManager.rttiAddr : Addr := 3

/-- `MXObject::get_rtti` constructs `{ "MXObject", nullptr }`
(src/core, MXObject translation unit). -/
def MXObject.get_rtti : MXRuntimeTypeInfo :=
  { name := "MXObject", parent := none }

/-- `MXError::get_rtti` constructs `{"MXError", &MXObject::get_rtti()}`. -/
def MXError.get_rtti : MXRuntimeTypeInfo :=
  { name := "MXError", parent := some MXObject.rttiAddr }

/-- `MXPopulationManager::get_rtti` constructs
`{ "mxs::core::MXPopulationManager", nullptr }`. -/
def MXPopulationManager.get_rtti : MXRuntimeTypeInfo :=
  { name := "mxs::core::MXPopulationManager", parent := none }

/-- `MXDynamicTypeInfoManager::get_rtti` constructs
`{ "mxs::core::MXDynamicTypeInfoManager", &MXObject::get_rtti() }`. -/
def MXDynamicTypeInfoManager.get_rtti : MXRuntimeTypeInfo :=
  { name := "mxs::core::MXDynamicTypeInfoManager", parent := some MXObject.rttiAddr }

/-- Every static `MXRuntimeTypeInfo` node constructed anywhere in the
repository's sources, keyed by its address: the four `get_rtti` call
sites of the core translation units. -/
def staticRttiNodes : List (Addr × MXRuntimeTypeInfo) :=
  [ (MXObject.rttiAddr, MXObject.get_rtti),
    (MXError.rttiAddr, MXError.get_rtti),
    (MXPopulationManager.rttiAddr, MXPopulationManager.get_rtti),
    (MXDynamicTypeInfoManager.rttiAddr, MXDynamicTypeInfoManager.get_rtti) ]

/-!
### C++ function-local static semantics (`get_rtti` call sites)

Each `get_rtti` has the body
`static MXRuntimeTypeInfo instance{...}; return instance;`.
A function-local static is constructed exactly once, at the first call,
and every later call returns the very same object.  We embed one call
site as a mutable cell that caches the address of the node it built.
-/

/-- The hidden state of one `static MXRuntimeTypeInfo instance{...}`
call site: `none` before the first call, `some a` once the node has
been constructed at address `a`. -/
structure CallSiteState where
  cached : Option Addr
deriving DecidableEq, Repr

/-- One call of a `get_rtti`-style accessor.  `alloc` is the address the
runtime would give the node if this call is the constructing one; a call
that finds the cache filled returns the cached address unchanged. -/
def get_rtti_call (alloc : Addr) (s : CallSiteState) : CallSiteState × Addr :=
  match s.cached with
  | some a => (s, a)
  | none => ({ cached := some alloc }, alloc)

/-- Run a sequence of further calls at the same call site, collecting the
returned addresses. -/
def run_rtti_calls (s : CallSiteState) : List Addr → List Addr
  | [] => []
  | a :: rest =>
      let r := get_rtti_call a s
      r.2 :: run_rtti_calls r.1 rest

theorem get_rtti_call_cached (a : Addr) (s : CallSiteState) :
    (get_rtti_call a s).1.cached = some (get_rtti_call a s).2 := by
  unfold get_rtti_call
  cases h : s.cached <;> simp [h]

/-!
### The unified error value `MXError`

`MXError::MXError` (src/core, MXError translation unit) initialises the
base `MXObject`, moves the four arguments into the fields, and returns;
its body is empty.  The claim under test says a `panic=true` construction
halts the process, so the embedded constructor's result type has an
explicit `halted` outcome; the source constructor never produces it.
-/

/-- The fields of an `mxs::core::MXError` value. -/
structure MXError where
  error_type_ : String
  message_ : String
  alternative_ : Option Addr
  panic_ : Bool
  is_static : Bool
deriving DecidableEq, Repr

/-- Outcome of running a constructor: either control returns to the
caller with the constructed value, or the process was halted after
writing `category` and `message` to standard error. -/
inductive ConstructOutcome (α : Type) where
  | returned (v : α)
  | halted (category message : String)
deriving DecidableEq, Repr

/-- `MXError::MXError(error_type, message, alternative, panic, is_static)`:
copies `error_type` and `message`, moves `alternative`, stores `panic`,
and returns control to the caller unconditionally — the body contains no
output statement and no termination call. -/
def MXError.construct (error_type message : String) (alternative : Option Addr)
    (panic is_static : Bool) : ConstructOutcome MXError :=
  ConstructOutcome.returned
    { error_type_ := error_type
      message_ := message
      alternative_ := alternative
      panic_ := panic
      is_static := is_static }

/-!
### `MXObject`'s dynamic property store

`MXObject` holds `dynamic_owned_properties : unordered_map<string, MXObjectOwned>`
and `dynamic_shared_properties : unordered_map<string, MXObjectShared>`.
A map is a function from names to `Option` entries (`none` = key absent).
An owned entry stores a `unique_ptr` handle, itself nullable, so an owned
entry is an `Option Addr`.  `released` records, most recent first, every
object destroyed by a `unique_ptr` being overwritten.
-/

/-- A `std::unique_ptr<MXObject>` handle: `none` is the null handle. -/
abbrev MXObjectOwned := Option Addr

/-- Moving out of a `unique_ptr` (`std::move` + construction/assignment
from the rvalue): the target receives the contents, the source is empty. -/
def moveHandle (h : MXObjectOwned) : MXObjectOwned × MXObjectOwned :=
  (h, none)

/-- The property-store state of one `MXObject`. -/
structure MXObjectState where
  dynamic_owned_properties : String → Option MXObjectOwned
  dynamic_shared_properties : String → Option Addr
  released : List Addr

/-- A freshly constructed `MXObject`: both property maps empty, nothing
released yet. -/
def MXObjectState.fresh : MXObjectState :=
  { dynamic_owned_properties := fun _ => none
    dynamic_shared_properties := fun _ => none
    released := [] }

/-- `unique_ptr` move assignment `slot = std::move(v)`: the object the
slot previously managed (if any) is deleted, then the slot takes `v`'s
contents.  Returns the additions to `released`. -/
def releasedByOverwrite (old : Option MXObjectOwned) (released : List Addr) :
    List Addr :=
  match old with
  | some (some a) => a :: released
  | _ => released

/-- `MXObject::register_properties(name, MXObjectOwned value)`:
`dynamic_owned_properties[name] = std::move(value); return value;`.
`operator[]` creates the entry if absent; the move assignment deletes the
object the entry previously managed; the `return value` returns the
moved-from (hence empty) handle. -/
def register_properties_owned (name : String) (value : MXObjectOwned)
    (s : MXObjectState) : MXObjectState × MXObjectOwned :=
  let m := moveHandle value
  let old := s.dynamic_owned_properties name
  ({ s with
      dynamic_owned_properties := fun n =>
        if n = name then some m.1 else s.dynamic_owned_properties n
      released := releasedByOverwrite old s.released },
   m.2)

/-- `MXObject::register_properties(name, MXObjectShared value)`:
`dynamic_shared_properties[name] = value;` — only the shared map changes. -/
def register_properties_shared (name : String) (value : Addr)
    (s : MXObjectState) : MXObjectState :=
  { s with
      dynamic_shared_properties := fun n =>
        if n = name then some value else s.dynamic_shared_properties n }

/-- What `MXObject::refer_property` can do: return a `const` borrow of
the stored owned handle, raise the `std::out_of_range` exception thrown
by `unordered_map::at` on an absent key, or (the behaviour the spec
describes, which the source never exhibits) produce a LookupError
`MXError` value. -/
inductive ReferOutcome where
  | borrow (h : MXObjectOwned)
  | thrownOutOfRange
  | lookupError (e : MXError)
deriving DecidableEq, Repr

/-- `MXObject::refer_property(name)`:
`return this->dynamic_owned_properties.at(name);` — a borrow of the
mapped handle when the key is present; `unordered_map::at` throws
`std::out_of_range` when it is absent.  The shared map is never read. -/
def refer_property (name : String) (s : MXObjectState) : ReferOutcome :=
  match s.dynamic_owned_properties name with
  | some h => ReferOutcome.borrow h
  | none => ReferOutcome.thrownOutOfRange

/-!
### `MXPopulationManager`

`populations : unordered_set<const MXObject*>` guarded by a lock; a
`Finset Addr` models the set.  `register_object` / `unregister_object`
take a possibly-null pointer (`Option Addr`) and do nothing when it is
null (`if (obj) ...`).
-/

/-- `MXPopulationManager::register_object(obj)`:
`if (obj) this->populations.insert(obj);`. -/
def register_object (obj : Option Addr) (populations : Finset Addr) :
    Finset Addr :=
  match obj with
  | some a => insert a populations
  | none => populations

/-- `MXPopulationManager::unregister_object(obj)`:
`if (obj) this->populations.erase(obj);`. -/
def unregister_object (obj : Option Addr) (populations : Finset Addr) :
    Finset Addr :=
  match obj with
  | some a => populations.erase a
  | none => populations

/-!
### Object lifecycle events

In the sources, the only callers of `register_object` / `unregister_object`
are `MXObject::MXObject` and `MXObject::~MXObject`: construction of any
runtime object registers its address, destruction unregisters it, and
every other operation of the core (property registration and lookup,
`equals`, `get_hash_code`, `repr`, the type registries) never touches the
population set.  A trace of core operations is a list of such events.
-/

/-- One runtime-core event, as it affects the population set:
`construct o` is `MXObject::MXObject` running for the object at `o`,
`destruct o` is `MXObject::~MXObject`, and `otherOp o` is any other core
operation on the object at `o` (none of which calls the tracker). -/
inductive Event where
  | construct (o : Addr)
  | destruct (o : Addr)
  | otherOp (o : Addr)
deriving DecidableEq, Repr

/-- Effect of one event on the population set. -/
def stepEvent (populations : Finset Addr) : Event → Finset Addr
  | Event.construct o => register_object (some o) populations
  | Event.destruct o => unregister_object (some o) populations
  | Event.otherOp _ => populations

/-- Effect of a trace of events on the population set. -/
def runTrace (populations : Finset Addr) : List Event → Finset Addr
  | [] => populations
  | e :: rest => runTrace (stepEvent populations e) rest

theorem mem_stepEvent_of_ne_destruct (o : Addr) (populations : Finset Addr)
    (e : Event) (hmem : o ∈ populations) (hne : e ≠ Event.destruct o) :
    o ∈ stepEvent populations e := by
  cases e with
  | construct o' => exact Finset.mem_insert_of_mem hmem
  | destruct o' =>
      refine Finset.mem_erase.mpr ⟨?_, hmem⟩
      intro h
      exact hne (by rw [h])
  | otherOp o' => exact hmem

theorem mem_runTrace_of_no_destruct (o : Addr) (populations : Finset Addr)
    (tr : List Event) (hmem : o ∈ populations)
    (h : ∀ e ∈ tr, e ≠ Event.destruct o) : o ∈ runTrace populations tr := by
  induction tr generalizing populations with
  | nil => exact hmem
  | cons e rest ih =>
      exact ih (stepEvent populations e)
        (mem_stepEvent_of_ne_destruct o populations e hmem
          (h e (List.mem_cons_self e rest)))
        (fun e' he' => h e' (List.mem_cons_of_mem e he'))

/-- `MXError::is_panic()`: reads the stored panic flag. -/
def MXError.is_panic (e : MXError) : Bool := e.panic_

/-- Discriminator: did `refer_property` produce a LookupError value? -/
def ReferOutcome.isLookupError : ReferOutcome → Bool
  | ReferOutcome.lookupError _ => true
  | _ => false

theorem run_rtti_calls_of_cached (later : List Addr) (a : Addr)
    (s : CallSiteState) (h : s.cached = some a) :
    run_rtti_calls s later = later.map (fun _ => a) := by
  induction later generalizing s with
  | nil => rfl
  | cons x rest ih =>
      have hcall : get_rtti_call x s = (s, a) := by
        unfold get_rtti_call
        rw [h]
      simp [run_rtti_calls, hcall, ih s h]

/-!
## Claim theorems
-/

/-- C1, counterexample: constructing an `MXError` with category
`"ZeroDivisionError"`, message `"divisor is zero"` and `panic = true`
does not halt the process; the constructor returns control to the caller
with the error as an ordinary value carrying the panic flag. -/
theorem c1_panic_construction_not_halted :
    MXError.construct "ZeroDivisionError" "divisor is zero" none true false
      = ConstructOutcome.returned
          { error_type_ := "ZeroDivisionError", message_ := "divisor is zero"
            alternative_ := none, panic_ := true, is_static := false } ∧
    MXError.construct "ZeroDivisionError" "divisor is zero" none true false
      ≠ ConstructOutcome.halted "ZeroDivisionError" "divisor is zero" := by
  exact ⟨rfl, by simp [MXError.construct]⟩

/-- C1, amended: for every category, message, alternative and staticness,
constructing an `MXError` with `panic = true` returns the error value to
the caller as an ordinary value — the process is not terminated and
nothing is printed; the panic flag is merely stored and observable via
`is_panic`. -/
theorem c1_amended_panic_error_returned_as_value (et msg : String)
    (alt : Option Addr) (st : Bool) :
    ∃ e : MXError, MXError.construct et msg alt true st
        = ConstructOutcome.returned e
      ∧ e.is_panic = true ∧ e.error_type_ = et ∧ e.message_ = msg :=
  ⟨{ error_type_ := et, message_ := msg, alternative_ := alt,
     panic_ := true, is_static := st }, rfl, rfl, rfl, rfl⟩

/-- C2: the static type-information nodes do not form a forest with
exactly one null-parent root: `MXPopulationManager::get_rtti` constructs
a second node with a null parent even though it is not the root type
`MXObject`, so two distinct nodes of the registry have `parent = nullptr`. -/
theorem c2_population_manager_rtti_null_parent_bug :
    MXPopulationManager.get_rtti.parent = none ∧
    MXObject.get_rtti.parent = none ∧
    MXPopulationManager.get_rtti.name ≠ MXObject.get_rtti.name ∧
    MXPopulationManager.rttiAddr ≠ MXObject.rttiAddr ∧
    (staticRttiNodes.filter (fun p => p.2.parent = none)).length = 2 := by
  refine ⟨rfl, rfl, ?_, by decide, rfl⟩
  decide

/-- C3, counterexample: looking up an absent property name does not fail
with a LookupError `MXError`; `refer_property` raises the
`std::out_of_range` exception thrown by `unordered_map::at`. -/
theorem c3_absent_name_throws_out_of_range :
    refer_property "x" MXObjectState.fresh = ReferOutcome.thrownOutOfRange ∧
    (refer_property "x" MXObjectState.fresh).isLookupError = false :=
  ⟨rfl, rfl⟩

/-- C3, amended: for every object and property name, `refer_property`
returns a non-owning borrow of the stored owned handle when the name is
present (in particular right after registering it), and when the name is
absent it fails by raising `std::out_of_range` — no LookupError
`MXError` is produced. -/
theorem c3_amended_refer_property_borrow_or_throw (name : String)
    (s : MXObjectState) (value : MXObjectOwned) :
    refer_property name ((register_properties_owned name value s).1)
        = ReferOutcome.borrow value ∧
    (s.dynamic_owned_properties name = none →
      refer_property name s = ReferOutcome.thrownOutOfRange) := by
  constructor
  · simp [refer_property, register_properties_owned, moveHandle]
  · intro h
    simp [refer_property, h]

/-- Witness for C3's amended theorem at a concrete object and name. -/
theorem c3_amended_witness :
    refer_property "x"
        ((register_properties_owned "x" (some 7) MXObjectState.fresh).1)
        = ReferOutcome.borrow (some 7) ∧
    refer_property "x" MXObjectState.fresh = ReferOutcome.thrownOutOfRange :=
  ⟨(c3_amended_refer_property_borrow_or_throw "x" MXObjectState.fresh (some 7)).1,
   (c3_amended_refer_property_borrow_or_throw "x" MXObjectState.fresh (some 7)).2 rfl⟩

/-- C4: registering owned value `a` under a name and then owned value `b`
under the same name leaves the property map holding `b` (so
`refer_property` borrows `b`) and has released the prior value `a`. -/
theorem c4_last_write_wins_and_releases_prior (name : String)
    (s : MXObjectState) (a b : Addr) (hab : a ≠ b) :
    refer_property name
        ((register_properties_owned name (some b)
          ((register_properties_owned name (some a) s).1)).1)
      = ReferOutcome.borrow (some b) ∧
    a ∈ ((register_properties_owned name (some b)
          ((register_properties_owned name (some a) s).1)).1).released := by
  constructor
  · simp [refer_property, register_properties_owned, moveHandle]
  · simp [register_properties_owned, moveHandle, releasedByOverwrite]

/-- Witness for C4 at a concrete object, name and pair of values. -/
theorem c4_witness :
    (1 : Addr) ≠ 2 ∧
    (refer_property "x"
        ((register_properties_owned "x" (some 2)
          ((register_properties_owned "x" (some 1) MXObjectState.fresh).1)).1)
      = ReferOutcome.borrow (some 2) ∧
    1 ∈ ((register_properties_owned "x" (some 2)
          ((register_properties_owned "x" (some 1) MXObjectState.fresh).1)).1).released) :=
  ⟨by decide,
   c4_last_write_wins_and_releases_prior "x" MXObjectState.fresh 1 2 (by decide)⟩

/-- C5: an object is in the population set from its construction to its
destruction: construction registers it, it stays a member across any
trace of events that does not destruct it, destruction removes it, and
no event other than its own construction/destruction changes its
membership. -/
theorem c5_tracked_while_live (o : Addr) (populations : Finset Addr)
    (mid : List Event) (e : Event)
    (hmid : Event.destruct o ∉ mid)
    (hc : e ≠ Event.construct o) (hd : e ≠ Event.destruct o) :
    o ∈ stepEvent populations (Event.construct o) ∧
    o ∈ runTrace (stepEvent populations (Event.construct o)) mid ∧
    o ∉ stepEvent (runTrace (stepEvent populations (Event.construct o)) mid)
        (Event.destruct o) ∧
    (o ∈ stepEvent populations e ↔ o ∈ populations) := by
  have hmem : o ∈ stepEvent populations (Event.construct o) :=
    Finset.mem_insert_self o populations
  have hrun : o ∈ runTrace (stepEvent populations (Event.construct o)) mid :=
    mem_runTrace_of_no_destruct o _ mid hmem
      (fun e' he' heq => hmid (heq ▸ he'))
  refine ⟨hmem, hrun, Finset.not_mem_erase o _, ?_⟩
  cases e with
  | construct o' =>
      have hne : o ≠ o' := fun h => hc (by rw [h])
      simp [stepEvent, register_object, Finset.mem_insert, hne]
  | destruct o' =>
      have hne : o ≠ o' := fun h => hd (by rw [h])
      simp [stepEvent, unregister_object, Finset.mem_erase, hne]
  | otherOp o' => exact Iff.rfl

/-- Witness for C5 at a concrete object, set and trace. -/
theorem c5_witness :
    (Event.destruct 1 ∉
        [Event.construct 2, Event.otherOp 1, Event.destruct 2] ∧
     Event.otherOp 1 ≠ Event.construct 1 ∧
     Event.otherOp 1 ≠ Event.destruct 1) ∧
    ((1 : Addr) ∈ stepEvent ∅ (Event.construct 1) ∧
     (1 : Addr) ∈ runTrace (stepEvent ∅ (Event.construct 1))
        [Event.construct 2, Event.otherOp 1, Event.destruct 2] ∧
     (1 : Addr) ∉ stepEvent (runTrace (stepEvent ∅ (Event.construct 1))
        [Event.construct 2, Event.otherOp 1, Event.destruct 2])
        (Event.destruct 1) ∧
     ((1 : Addr) ∈ stepEvent ∅ (Event.otherOp 1) ↔ (1 : Addr) ∈ (∅ : Finset Addr))) :=
  ⟨⟨by decide, by decide, by decide⟩,
   c5_tracked_while_live 1 ∅ [Event.construct 2, Event.otherOp 1, Event.destruct 2]
     (Event.otherOp 1) (by decide) (by decide) (by decide)⟩

/-- C6: population-tracker registration and unregistration are idempotent
set insert/erase: registering an object twice equals registering it once,
and after register-then-unregister a second unregister changes nothing
(both are total functions — no error is signalled). -/
theorem c6_register_unregister_idempotent (o : Addr) (s : Finset Addr) :
    register_object (some o) (register_object (some o) s)
        = register_object (some o) s ∧
    unregister_object (some o)
        (unregister_object (some o) (register_object (some o) s))
      = unregister_object (some o) (register_object (some o) s) ∧
    unregister_object (some o) (unregister_object (some o) s)
        = unregister_object (some o) s := by
  refine ⟨?_, ?_, ?_⟩
  · simp [register_object, Finset.insert_idem]
  · simp [register_object, unregister_object, Finset.erase_idem]
  · simp [unregister_object, Finset.erase_idem]

/-- C7: a `get_rtti` call site constructs its static node on the first
call and every subsequent call returns the identical reference: running
any list of further calls after a first call yields the first call's
address every time. -/
theorem c7_get_rtti_stable_reference (alloc : Addr) (s : CallSiteState)
    (later : List Addr) :
    run_rtti_calls (get_rtti_call alloc s).1 later
      = later.map (fun _ => (get_rtti_call alloc s).2) :=
  run_rtti_calls_of_cached later _ _ (get_rtti_call_cached alloc s)

/-- C8: the `MXObjectOwned` overload of `register_properties` always
returns the empty (null) handle: the argument is moved into the property
map, so `return value` returns a moved-from `unique_ptr`, whatever the
prior contents of the map. -/
theorem c8_owned_register_returns_empty_handle (name : String)
    (value : MXObjectOwned) (s : MXObjectState) :
    (register_properties_owned name value s).2 = none := rfl

/-- C9: `refer_property` consults only the owned-property map: after
registering a value under a name with the shared overload (the name
having no owned entry), the shared map holds the value but
`refer_property` takes the absent-name failure path. -/
theorem c9_refer_property_ignores_shared_map (name : String) (v : Addr)
    (s : MXObjectState) (h : s.dynamic_owned_properties name = none) :
    refer_property name (register_properties_shared name v s)
        = ReferOutcome.thrownOutOfRange ∧
    (register_properties_shared name v s).dynamic_shared_properties name
        = some v := by
  constructor
  · simp [refer_property, register_properties_shared, h]
  · simp [register_properties_shared]

/-- Witness for C9 at a concrete object, name and shared value. -/
theorem c9_witness :
    MXObjectState.fresh.dynamic_owned_properties "n" = none ∧
    (refer_property "n" (register_properties_shared "n" 5 MXObjectState.fresh)
        = ReferOutcome.thrownOutOfRange ∧
     (register_properties_shared "n" 5 MXObjectState.fresh).dynamic_shared_properties "n"
        = some 5) :=
  ⟨rfl, c9_refer_property_ignores_shared_map "n" 5 MXObjectState.fresh rfl⟩

/-- C10: `register_object` and `unregister_object` called with a null
pointer leave the population set unchanged for every prior state, and
signal no error (both are total). -/
theorem c10_null_pointer_noop (s : Finset Addr) :
    register_object none s = s ∧ unregister_object none s = s :=
  ⟨rfl, rfl⟩

end MxsCore
